import Mathlib

/-!
# Verification of the `loopers` bootstrap (`src/loopers/src/main.rs`)

A shallow embedding of the startup routine of the loopers live-looping
application.  The file models:

* `setup_logger` (lines 137–169 of `main.rs`): builds a fern dispatch with a
  stdout sink, optionally chains a file sink, and applies it;
* `main` (lines 73–135): logger setup, optional restore notice, construction
  of the bounded control channel (`bounded(100)`), selection of the update
  channel variant and optional GUI construction, decoding of the two bundled
  metronome wav assets, and dispatch on the driver string.

External effects (wav decoding by `hound`, file creation by `fern::log_file`,
the success of `Dispatch::apply`, the target OS, the result of
`coreaudio_main`) are inputs of the model, supplied in an environment record.
`main` is modelled as a function from the parsed CLI options and that
environment to the ordered trace of observable construction/IO steps it
performs together with its final outcome (panic, `exit(code)`, or a dispatch
into a backend entry point, which never returns in normal operation).

PCM sample values are abstracted as integers: no property below depends on
sample arithmetic, only on the decoded buffers being passed through unchanged.
-/

/-- Decoded PCM samples of a metronome buffer.  The Rust code collects
`f32` samples; their numeric values are irrelevant to every property here,
so samples are represented abstractly by integers. -/
abbrev Samples := List Int

/-- The parsed command-line options (struct `Cli` in `main.rs`, lines 36–71).
`clap` parsing itself is external; `main` receives the parsed record. -/
structure Cli where
  restore : Bool
  no_gui : Bool
  driver : String
  debug : Bool
  log_path : String
  deriving DecidableEq, Repr

/-- `fern::InitError`: either an I/O error (from `fern::log_file`) or a
`SetLoggerError` (from `Dispatch::apply`). -/
inductive InitError
  | io
  | setLogger
  deriving DecidableEq, Repr

/-- A log sink chained into the fern dispatch. -/
inductive Sink
  | stdout
  | file (path : String)
  deriving DecidableEq, Repr

/-- Outcomes of the external operations `setup_logger` performs:
whether `fern::log_file(path)` succeeds and whether `Dispatch::apply()`
succeeds (it fails when a global logger is already installed). -/
structure LoggerEnv where
  logFileCreateOk : Bool
  applyOk : Bool
  deriving DecidableEq, Repr

instance : DecidableEq (Except InitError Unit)
  | .ok (), .ok () => .isTrue rfl
  | .ok (), .error _ => .isFalse Except.noConfusion
  | .error _, .ok () => .isFalse Except.noConfusion
  | .error e, .error f =>
    if h : e = f then .isTrue (by rw [h])
    else .isFalse (fun hh => h (by injection hh))

/-- What a run of `setup_logger` did: its return value, whether
`Dispatch::apply()` was ever invoked, and the sinks installed globally
(`some` only when `apply` succeeded). -/
structure LoggerRun where
  result : Except InitError Unit
  applyInvoked : Bool
  installed : Option (List Sink)
  deriving DecidableEq, Repr

/-- `log::LevelFilter` as selected by `setup_logger`. -/
inductive LevelFilter
  | debug
  | info
  deriving DecidableEq, Repr

/-- `setup_logger(debug, path)` (`main.rs` lines 137–169): choose the level,
chain a stdout sink, then — when `path` is non-empty — chain a file sink
created by `fern::log_file(path)?`; the `?` returns the I/O error before
`d.apply()` runs.  Finally `d.apply()?`. -/
def setup_logger (debug : Bool) (path : String) (env : LoggerEnv) : LoggerRun :=
  let _level := if debug then LevelFilter.debug else LevelFilter.info
  let sinks := [Sink.stdout]
  if path ≠ "" then
    if env.logFileCreateOk then
      let sinks := sinks ++ [Sink.file path]
      if env.applyOk then
        { result := .ok (), applyInvoked := true, installed := some sinks }
      else
        { result := .error .setLogger, applyInvoked := true, installed := none }
    else
      { result := .error .io, applyInvoked := false, installed := none }
  else
    if env.applyOk then
      { result := .ok (), applyInvoked := true, installed := some sinks }
    else
      { result := .error .setLogger, applyInvoked := true, installed := none }

/-- The sending half of the bounded crossbeam control channel
(`gui_to_engine_sender`); the channel's capacity is recorded on the handle. -/
structure Sender where
  capacity : Nat
  deriving DecidableEq, Repr

/-- The receiving half of the bounded crossbeam control channel
(`gui_to_engine_receiver`). -/
structure Receiver where
  capacity : Nat
  deriving DecidableEq, Repr

/-- `GuiSender`, the update-channel sending handle from `loopers_common`:
either the connected variant produced by `GuiSender::new()` or the
disconnected no-op variant from `GuiSender::disconnected()`.  A run
constructs at most one underlying update channel, so connected handles
need no further identity: equal handles refer to the same channel. -/
inductive GuiSender
  | connected
  | disconnected
  deriving DecidableEq, Repr

/-- Cloning a `GuiSender`: a cloned crossbeam sender is a new handle to the
same underlying channel, modelled as an equal handle. -/
def GuiSender.clone (s : GuiSender) : GuiSender := s

/-- The `Gui` value (from `loopers_gui`), recorded as its constructor
arguments: `Gui::new(receiver, gui_to_engine_sender, sender.clone())`. -/
structure Gui where
  receiver : Unit
  engine_sender : Sender
  sender : GuiSender
  deriving DecidableEq, Repr

/-- The arguments of a backend entry-point call
(`jack_main` / `coreaudio_main`), in source order. -/
structure BackendArgs where
  gui : Option Gui
  gui_sender : GuiSender
  gui_to_engine_receiver : Receiver
  beat_normal : Samples
  beat_emphasis : Samples
  restore : Bool
  deriving DecidableEq, Repr

/-- Which bundled metronome asset a decode step handled. -/
inductive WavAsset
  | normal
  | emphasis
  deriving DecidableEq, Repr

/-- One observable step of `main`, in execution order. -/
inductive Step
  /-- `eprintln!("Unable to set up logging: ...")` (line 76). -/
  | logSetupError
  /-- `info!("Restoring previous session")` (line 80). -/
  | logRestore
  /-- `bounded(100)` constructing the control channel (line 83). -/
  | mkControlChannel (capacity : Nat)
  /-- `GuiSender::new()` constructing the connected update channel (line 86). -/
  | mkUpdateChannelConnected
  /-- `GuiSender::disconnected()` selecting the no-op variant (line 92). -/
  | mkUpdateChannelDisconnected
  /-- `Gui::new(receiver, gui_to_engine_sender, sender.clone())` (line 88). -/
  | mkGui (g : Gui)
  /-- Successful decode of a bundled wav asset into samples (lines 96–100). -/
  | decodeWav (which : WavAsset) (samples : Samples)
  /-- The call `jack_main(...)` (lines 104–111). -/
  | callJackMain (args : BackendArgs)
  /-- The call `coreaudio_main(...)` (lines 116–123, macOS only). -/
  | callCoreaudioMain (args : BackendArgs)
  /-- `eprintln!("Coreaudio is not supported on this system; ...")` (line 126). -/
  | printUnsupportedCoreaudio
  /-- `eprintln!("Unknown driver '{}'", driver)` (line 131). -/
  | printUnknownDriver (name : String)
  deriving DecidableEq, Repr

/-- The final outcome of `main`: an unwound panic (`unwrap`/`expect`
failure), an explicit `exit(code)`, or a dispatch into a backend entry
point, which in normal operation runs until process exit. -/
inductive Outcome
  | panicked
  | exited (code : Nat)
  | dispatched
  deriving DecidableEq, Repr

/-- Outcomes of the external operations `main` performs. -/
structure Env where
  /-- Whether the binary was compiled for macOS (`cfg!(target_os = "macos")`). -/
  targetOsMacos : Bool
  /-- Environment of the `setup_logger` call. -/
  logger : LoggerEnv
  /-- Result of decoding `SINE_NORMAL` with `hound`; `none` means some
  `unwrap` in line 96–97 panics. -/
  decodeNormal : Option Samples
  /-- Result of decoding `SINE_EMPHASIS`; `none` means a panic in 99–100. -/
  decodeEmphasis : Option Samples
  /-- Whether `coreaudio_main` returns `Ok` (its `Err` panics via `expect`). -/
  coreaudioOk : Bool
  deriving DecidableEq, Repr

namespace Loopers

/-- Lines 75–77: `if let Err(e) = setup_logger(..) { eprintln!(..) }`.
Failure is reported and execution continues. -/
def logSteps (cli : Cli) (env : Env) : List Step :=
  match (setup_logger cli.debug cli.log_path env.logger).result with
  | .ok _ => []
  | .error _ => [Step.logSetupError]

/-- Lines 79–81: `if cli.restore { info!("Restoring previous session") }`. -/
def restoreSteps (cli : Cli) : List Step :=
  if cli.restore then [Step.logRestore] else []

/-- Lines 85–93: selection of the update-channel variant and optional GUI
construction.  Returns the construction steps, the optional `Gui`, and the
`GuiSender` kept by `main` (the value bound to `gui_sender`). -/
def guiInit (cli : Cli) : List Step × Option Gui × GuiSender :=
  if !cli.no_gui then
    let sender := GuiSender.connected
    let g : Gui :=
      { receiver := (), engine_sender := ⟨100⟩, sender := sender.clone }
    ([Step.mkUpdateChannelConnected, Step.mkGui g], some g, sender)
  else
    ([Step.mkUpdateChannelDisconnected], none, GuiSender.disconnected)

/-- Lines 102–134: the `match cli.driver.as_str()` dispatch, given the decoded
buffers and the previously constructed resources. -/
def dispatch (cli : Cli) (env : Env) (gui : Option Gui) (gui_sender : GuiSender)
    (beat_normal beat_emphasis : Samples) : List Step × Outcome :=
  let args : BackendArgs :=
    { gui := gui
      gui_sender := gui_sender
      gui_to_engine_receiver := ⟨100⟩
      beat_normal := beat_normal
      beat_emphasis := beat_emphasis
      restore := cli.restore }
  match cli.driver with
  | "jack" => ([Step.callJackMain args], Outcome.dispatched)
  | "coreaudio" =>
    if env.targetOsMacos then
      ([Step.callCoreaudioMain args],
        if env.coreaudioOk then Outcome.dispatched else Outcome.panicked)
    else
      ([Step.printUnsupportedCoreaudio], Outcome.exited 1)
  | d => ([Step.printUnknownDriver d], Outcome.exited 1)

/-- Lines 95–134: decode the two bundled wav assets (a failed `unwrap`
panics immediately) and, on success, dispatch on the driver string. -/
def decodeAndDispatch (cli : Cli) (env : Env) (gui : Option Gui)
    (gui_sender : GuiSender) : List Step × Outcome :=
  match env.decodeNormal with
  | none => ([], Outcome.panicked)
  | some beat_normal =>
    match env.decodeEmphasis with
    | none => ([Step.decodeWav .normal beat_normal], Outcome.panicked)
    | some beat_emphasis =>
      let d := dispatch cli env gui gui_sender beat_normal beat_emphasis
      (Step.decodeWav .normal beat_normal
        :: Step.decodeWav .emphasis beat_emphasis :: d.1, d.2)

/-- `main` (`main.rs` lines 73–135), as the ordered trace of its observable
steps together with its outcome.  (Namespaced because a bare `main` is the
reserved program entry point in Lean.) -/
def main (cli : Cli) (env : Env) : List Step × Outcome :=
  let g := guiInit cli
  let rest := decodeAndDispatch cli env g.2.1 g.2.2
  (logSteps cli env ++ restoreSteps cli
    ++ [Step.mkControlChannel 100] ++ g.1 ++ rest.1, rest.2)

end Loopers

/-! ## Trace observers -/

/-- Is the step a control-channel construction? -/
def Step.isMkControlChannel : Step → Bool
  | .mkControlChannel _ => true
  | _ => false

/-- Is the step an update-channel construction/selection
(`GuiSender::new` or `GuiSender::disconnected`)? -/
def Step.isMkUpdateChannel : Step → Bool
  | .mkUpdateChannelConnected => true
  | .mkUpdateChannelDisconnected => true
  | _ => false

/-- Is the step a `Gui` construction? -/
def Step.isMkGui : Step → Bool
  | .mkGui _ => true
  | _ => false

/-- Is the step a call into a backend entry point? -/
def Step.isBackendCall : Step → Bool
  | .callJackMain _ => true
  | .callCoreaudioMain _ => true
  | _ => false

/-- The argument records of all backend entry-point calls in a trace. -/
def backendCallArgs : List Step → List BackendArgs
  | [] => []
  | .callJackMain a :: rest => a :: backendCallArgs rest
  | .callCoreaudioMain a :: rest => a :: backendCallArgs rest
  | _ :: rest => backendCallArgs rest

/-- The argument records of the `jack_main` calls in a trace. -/
def jackCallArgs : List Step → List BackendArgs
  | [] => []
  | .callJackMain a :: rest => a :: jackCallArgs rest
  | _ :: rest => jackCallArgs rest

/-- `noStepBefore p q t = true` iff no `q`-step occurs in `t` strictly before
the first `p`-step (vacuously true when `t` has no `p`-step). -/
def noStepBefore (p q : Step → Bool) : List Step → Bool
  | [] => true
  | s :: rest => if p s then true else !q s && noStepBefore p q rest

/-! ## Concrete inputs used by witnesses and counterexamples -/

/-- The default CLI options: GUI enabled, jack driver, no restore. -/
def cliDefault : Cli :=
  { restore := false, no_gui := false, driver := "jack",
    debug := false, log_path := "" }

/-- A benign environment: non-macOS, logging succeeds, both assets decode. -/
def envOk : Env :=
  { targetOsMacos := false, logger := ⟨true, true⟩,
    decodeNormal := some [1, 2], decodeEmphasis := some [3], coreaudioOk := true }

/-- Headless CLI options with the jack driver and no restore. -/
def cliJackHeadless : Cli :=
  { restore := false, no_gui := true, driver := "jack",
    debug := false, log_path := "" }

/-- An environment in which decoding the normal metronome asset fails
(the `unwrap` on line 96 panics). -/
def envDecodeFail : Env :=
  { targetOsMacos := false, logger := ⟨true, true⟩,
    decodeNormal := none, decodeEmphasis := none, coreaudioOk := true }

/-! ## Helper lemmas about traces -/

theorem backendCallArgs_append (a b : List Step) :
    backendCallArgs (a ++ b) = backendCallArgs a ++ backendCallArgs b := by
  induction a with
  | nil => rfl
  | cons s rest ih => cases s <;> simp [backendCallArgs, ih]

theorem jackCallArgs_append (a b : List Step) :
    jackCallArgs (a ++ b) = jackCallArgs a ++ jackCallArgs b := by
  induction a with
  | nil => rfl
  | cons s rest ih => cases s <;> simp [jackCallArgs, ih]

theorem mem_logSteps (cli : Cli) (env : Env) (s : Step)
    (h : s ∈ Loopers.logSteps cli env) : s = Step.logSetupError := by
  unfold Loopers.logSteps at h
  split at h <;> simp_all

theorem mem_restoreSteps (cli : Cli) (s : Step)
    (h : s ∈ Loopers.restoreSteps cli) : s = Step.logRestore := by
  unfold Loopers.restoreSteps at h
  split at h <;> simp_all

theorem noStepBefore_append (p q : Step → Bool) (xs ys : List Step)
    (hxs : ∀ s ∈ xs, p s = false ∧ q s = false) :
    noStepBefore p q (xs ++ ys) = noStepBefore p q ys := by
  induction xs with
  | nil => rfl
  | cons s rest ih =>
    have hs := hxs s (by simp)
    simp [noStepBefore, hs.1, hs.2, ih fun t ht => hxs t (by simp [ht])]

/-! ## Claims -/

/-- Claim C1, counterexample.  The claim states that when decoding a bundled
metronome asset fails, the process aborts "with no further side effects: no
ControlChannel or UpdateChannel is constructed, no Control Surface is
created".  In the source, `bounded(100)` (line 83) and the `GuiSender`/`Gui`
construction (lines 85–93) execute *before* the wav decoding (lines 96–100),
so on a run with default options where decoding fails, the run panics with
the control channel, the connected update channel, and the GUI all already
constructed. -/
theorem C1_decode_failure_counterexample :
    envDecodeFail.decodeNormal = none ∧
    (Loopers.main cliDefault envDecodeFail).2 = Outcome.panicked ∧
    Step.mkControlChannel 100 ∈ (Loopers.main cliDefault envDecodeFail).1 ∧
    Step.mkUpdateChannelConnected ∈ (Loopers.main cliDefault envDecodeFail).1 ∧
    (Loopers.main cliDefault envDecodeFail).1.countP (fun s => s.isMkGui) = 1 := by
  decide

/-- Claim C1, amended.  For every run in which decoding either bundled
metronome asset fails, the process aborts at startup (panics) and no backend
entry point is invoked — but the ControlChannel and the UpdateChannel have
already been constructed (exactly once each) by the time of the abort, since
channel and GUI construction precede asset decoding in `main`. -/
theorem C1_decode_failure_aborts_amended (cli : Cli) (env : Env)
    (h : env.decodeNormal = none ∨ env.decodeEmphasis = none) :
    (Loopers.main cli env).2 = Outcome.panicked ∧
    backendCallArgs (Loopers.main cli env).1 = [] ∧
    (Loopers.main cli env).1.countP (fun s => s.isMkControlChannel) = 1 ∧
    (Loopers.main cli env).1.countP (fun s => s.isMkUpdateChannel) = 1 := by
  unfold Loopers.main Loopers.decodeAndDispatch Loopers.guiInit
  unfold Loopers.logSteps Loopers.restoreSteps
  rcases h with h | h <;>
    simp only [h] <;>
    repeat' split
  all_goals
    simp_all [backendCallArgs_append, backendCallArgs, List.countP_append,
      List.countP_cons, Step.isMkControlChannel, Step.isMkUpdateChannel]

/-- Claim C1, witness for the amended theorem at a concrete input. -/
theorem C1_decode_failure_aborts_amended_witness :
    (envDecodeFail.decodeNormal = none ∨ envDecodeFail.decodeEmphasis = none) ∧
    ((Loopers.main cliDefault envDecodeFail).2 = Outcome.panicked ∧
     backendCallArgs (Loopers.main cliDefault envDecodeFail).1 = [] ∧
     (Loopers.main cliDefault envDecodeFail).1.countP
       (fun s => s.isMkControlChannel) = 1 ∧
     (Loopers.main cliDefault envDecodeFail).1.countP
       (fun s => s.isMkUpdateChannel) = 1) :=
  ⟨Or.inl rfl,
    C1_decode_failure_aborts_amended cliDefault envDecodeFail (Or.inl rfl)⟩

/-- Claim C2: with driver `"jack"`, headless mode and `restore = false`,
after both assets decode successfully the bootstrap performs exactly one
backend dispatch, and it is the jack entry point, receiving `gui = none`
(no Control Surface), the disconnected update sender, the capacity-100
control receiver, both decoded buffers, and `restore = false`; no `Gui`
is ever constructed on such a run. -/
theorem C2_jack_headless_single_dispatch (cli : Cli) (env : Env)
    (hdrv : cli.driver = "jack") (hng : cli.no_gui = true) (hr : cli.restore = false)
    (bn be : Samples) (hn : env.decodeNormal = some bn)
    (he : env.decodeEmphasis = some be) :
    backendCallArgs (Loopers.main cli env).1 =
      [{ gui := none, gui_sender := GuiSender.disconnected,
         gui_to_engine_receiver := ⟨100⟩, beat_normal := bn, beat_emphasis := be,
         restore := false }] ∧
    jackCallArgs (Loopers.main cli env).1 = backendCallArgs (Loopers.main cli env).1 ∧
    (Loopers.main cli env).1.countP (fun s => s.isMkGui) = 0 ∧
    (Loopers.main cli env).2 = Outcome.dispatched := by
  unfold Loopers.main Loopers.decodeAndDispatch Loopers.guiInit Loopers.dispatch
  unfold Loopers.logSteps Loopers.restoreSteps
  simp only [hdrv, hng, hr, hn, he]
  repeat' split
  all_goals
    simp_all [backendCallArgs_append, backendCallArgs, jackCallArgs_append,
      jackCallArgs, List.countP_append, List.countP_cons, Step.isMkGui]

/-- Claim C2, witness at the concrete headless-jack configuration. -/
theorem C2_jack_headless_single_dispatch_witness :
    (cliJackHeadless.driver = "jack" ∧ cliJackHeadless.no_gui = true ∧
     cliJackHeadless.restore = false ∧ envOk.decodeNormal = some [1, 2] ∧
     envOk.decodeEmphasis = some [3]) ∧
    (backendCallArgs (Loopers.main cliJackHeadless envOk).1 =
      [{ gui := none, gui_sender := GuiSender.disconnected,
         gui_to_engine_receiver := ⟨100⟩, beat_normal := [1, 2],
         beat_emphasis := [3], restore := false }] ∧
     jackCallArgs (Loopers.main cliJackHeadless envOk).1 =
       backendCallArgs (Loopers.main cliJackHeadless envOk).1 ∧
     (Loopers.main cliJackHeadless envOk).1.countP (fun s => s.isMkGui) = 0 ∧
     (Loopers.main cliJackHeadless envOk).2 = Outcome.dispatched) :=
  ⟨⟨rfl, rfl, rfl, rfl, rfl⟩,
    C2_jack_headless_single_dispatch cliJackHeadless envOk rfl rfl rfl
      [1, 2] [3] rfl rfl⟩

/-- Claim C3: for every driver string other than `"jack"` and `"coreaudio"`
(the known set), on a run that reaches the dispatcher (both assets decode)
the catch-all match arm reports the offending name and the process exits
with status 1; no backend entry point is invoked. -/
theorem C3_unknown_driver_exits_nonzero (cli : Cli) (env : Env)
    (h1 : cli.driver ≠ "jack") (h2 : cli.driver ≠ "coreaudio")
    (bn be : Samples) (hn : env.decodeNormal = some bn)
    (he : env.decodeEmphasis = some be) :
    (Loopers.main cli env).2 = Outcome.exited 1 ∧
    Step.printUnknownDriver cli.driver ∈ (Loopers.main cli env).1 ∧
    backendCallArgs (Loopers.main cli env).1 = [] := by
  unfold Loopers.main Loopers.decodeAndDispatch Loopers.guiInit Loopers.dispatch
  unfold Loopers.logSteps Loopers.restoreSteps
  simp only [hn, he]
  repeat' split
  all_goals
    simp_all [backendCallArgs_append, backendCallArgs, List.mem_append]

/-- Claim C3, witness at the driver string `"nonexistent"`. -/
theorem C3_unknown_driver_exits_nonzero_witness :
    (({ cliDefault with driver := "nonexistent" } : Cli).driver ≠ "jack" ∧
     ({ cliDefault with driver := "nonexistent" } : Cli).driver ≠ "coreaudio" ∧
     envOk.decodeNormal = some [1, 2] ∧ envOk.decodeEmphasis = some [3]) ∧
    ((Loopers.main { cliDefault with driver := "nonexistent" } envOk).2 =
       Outcome.exited 1 ∧
     Step.printUnknownDriver "nonexistent" ∈
       (Loopers.main { cliDefault with driver := "nonexistent" } envOk).1 ∧
     backendCallArgs
       (Loopers.main { cliDefault with driver := "nonexistent" } envOk).1 = []) :=
  ⟨⟨by decide, by decide, rfl, rfl⟩,
    C3_unknown_driver_exits_nonzero { cliDefault with driver := "nonexistent" }
      envOk (by decide) (by decide) [1, 2] [3] rfl rfl⟩

/-- Claim C4: on a non-macOS build, a run with driver `"coreaudio"` that
reaches the dispatcher reports the unsupported combination and exits with
status 1; no backend entry point is invoked. -/
theorem C4_coreaudio_unsupported_exits_nonzero (cli : Cli) (env : Env)
    (hm : env.targetOsMacos = false) (hd : cli.driver = "coreaudio")
    (bn be : Samples) (hn : env.decodeNormal = some bn)
    (he : env.decodeEmphasis = some be) :
    (Loopers.main cli env).2 = Outcome.exited 1 ∧
    Step.printUnsupportedCoreaudio ∈ (Loopers.main cli env).1 ∧
    backendCallArgs (Loopers.main cli env).1 = [] := by
  unfold Loopers.main Loopers.decodeAndDispatch Loopers.guiInit Loopers.dispatch
  unfold Loopers.logSteps Loopers.restoreSteps
  simp only [hm, hd, hn, he]
  repeat' split
  all_goals
    simp_all [backendCallArgs_append, backendCallArgs, List.mem_append]

/-- Claim C4, witness: `"coreaudio"` on a non-macOS environment. -/
theorem C4_coreaudio_unsupported_exits_nonzero_witness :
    (envOk.targetOsMacos = false ∧
     ({ cliDefault with driver := "coreaudio" } : Cli).driver = "coreaudio" ∧
     envOk.decodeNormal = some [1, 2] ∧ envOk.decodeEmphasis = some [3]) ∧
    ((Loopers.main { cliDefault with driver := "coreaudio" } envOk).2 =
       Outcome.exited 1 ∧
     Step.printUnsupportedCoreaudio ∈
       (Loopers.main { cliDefault with driver := "coreaudio" } envOk).1 ∧
     backendCallArgs
       (Loopers.main { cliDefault with driver := "coreaudio" } envOk).1 = []) :=
  ⟨⟨rfl, rfl, rfl, rfl⟩,
    C4_coreaudio_unsupported_exits_nonzero { cliDefault with driver := "coreaudio" }
      envOk rfl rfl [1, 2] [3] rfl rfl⟩

/-- Claim C5: on every run, exactly one update-channel selection step occurs,
and its variant is determined by `no_gui` alone: disconnected with
`--no-gui` (and then no `Gui` is constructed), connected otherwise (and then
exactly one `Gui` is constructed).  The variant never changes: every backend
call in the trace carries the sender of the selected variant. -/
theorem C5_update_channel_variant_selected_once (cli : Cli) (env : Env) :
    (Loopers.main cli env).1.filter (fun s => s.isMkUpdateChannel) =
      [if cli.no_gui then Step.mkUpdateChannelDisconnected
       else Step.mkUpdateChannelConnected] ∧
    (Loopers.main cli env).1.countP (fun s => s.isMkGui) =
      (if cli.no_gui then 0 else 1) ∧
    (backendCallArgs (Loopers.main cli env).1).all
      (fun a => a.gui_sender ==
        (if cli.no_gui then GuiSender.disconnected else GuiSender.connected)) = true := by
  unfold Loopers.main Loopers.decodeAndDispatch Loopers.guiInit Loopers.dispatch
  unfold Loopers.logSteps Loopers.restoreSteps
  repeat' split
  all_goals
    simp_all [backendCallArgs_append, backendCallArgs, List.filter_append,
      List.countP_append, List.countP_cons, Step.isMkGui, Step.isMkUpdateChannel,
      GuiSender.clone]

/-- Claim C6: on every run, exactly one control-channel construction occurs,
with capacity exactly 100; no `Gui` construction and no backend call
precedes it in the trace; and every backend call receives the capacity-100
receiver. -/
theorem C6_single_control_channel_capacity_100 (cli : Cli) (env : Env) :
    (Loopers.main cli env).1.filter (fun s => s.isMkControlChannel) =
      [Step.mkControlChannel 100] ∧
    (backendCallArgs (Loopers.main cli env).1).all
      (fun a => a.gui_to_engine_receiver == ⟨100⟩) = true ∧
    noStepBefore Step.isMkControlChannel
      (fun s => s.isMkGui || s.isBackendCall) (Loopers.main cli env).1 = true := by
  refine ⟨?_, ?_, ?_⟩
  · unfold Loopers.main Loopers.decodeAndDispatch Loopers.guiInit Loopers.dispatch
    unfold Loopers.logSteps Loopers.restoreSteps
    repeat' split
    all_goals
      simp_all [List.filter_append, Step.isMkControlChannel]
  · unfold Loopers.main Loopers.decodeAndDispatch Loopers.guiInit Loopers.dispatch
    unfold Loopers.logSteps Loopers.restoreSteps
    repeat' split
    all_goals
      simp_all [backendCallArgs_append, backendCallArgs]
  · unfold Loopers.main
    simp only [List.append_assoc]
    rw [noStepBefore_append _ _ _ _
        (fun s hs => by rw [mem_logSteps cli env s hs]; exact ⟨rfl, rfl⟩),
      noStepBefore_append _ _ _ _
        (fun s hs => by rw [mem_restoreSteps cli s hs]; exact ⟨rfl, rfl⟩)]
    simp [noStepBefore, Step.isMkControlChannel]

/-- Claim C7: when `setup_logger` fails, the failure is reported (the
`eprintln` step) and execution continues unchanged — the run's trace is
exactly the report followed by the trace of the same run with a succeeding
logger, the outcome is identical, and in particular the control channel is
still constructed. -/
theorem C7_logger_failure_nonfatal (cli : Cli) (env : Env)
    (h : (setup_logger cli.debug cli.log_path env.logger).result ≠ Except.ok ()) :
    (Loopers.main cli env).1 =
      Step.logSetupError :: (Loopers.main cli { env with logger := ⟨true, true⟩ }).1 ∧
    (Loopers.main cli env).2 = (Loopers.main cli { env with logger := ⟨true, true⟩ }).2 ∧
    Step.mkControlChannel 100 ∈ (Loopers.main cli env).1 := by
  have hfail : Loopers.logSteps cli env = [Step.logSetupError] := by
    unfold Loopers.logSteps
    split
    · rename_i u heq
      cases u
      exact absurd heq h
    · rfl
  have hok : Loopers.logSteps cli { env with logger := ⟨true, true⟩ } = [] := by
    unfold Loopers.logSteps setup_logger
    by_cases hp : cli.log_path = "" <;> simp [hp]
  unfold Loopers.main
  simp only [Loopers.decodeAndDispatch, Loopers.dispatch, hfail, hok]
  simp [List.mem_append]

/-- Claim C7, witness: a run whose `Dispatch::apply()` fails still
constructs the channels and dispatches into the jack backend. -/
theorem C7_logger_failure_nonfatal_witness :
    ((setup_logger cliDefault.debug cliDefault.log_path
        ({ envOk with logger := ⟨true, false⟩ } : Env).logger).result ≠
      Except.ok ()) ∧
    ((Loopers.main cliDefault { envOk with logger := ⟨true, false⟩ }).1 =
      Step.logSetupError ::
        (Loopers.main cliDefault
          { { envOk with logger := ⟨true, false⟩ } with logger := ⟨true, true⟩ }).1 ∧
     (Loopers.main cliDefault { envOk with logger := ⟨true, false⟩ }).2 =
       (Loopers.main cliDefault
         { { envOk with logger := ⟨true, false⟩ } with logger := ⟨true, true⟩ }).2 ∧
     Step.mkControlChannel 100 ∈
       (Loopers.main cliDefault { envOk with logger := ⟨true, false⟩ }).1) :=
  ⟨by decide,
    C7_logger_failure_nonfatal cliDefault { envOk with logger := ⟨true, false⟩ }
      (by decide)⟩

/-- Claim C8: when the GUI is enabled, the single constructed `Gui` holds
the update-channel receiver, the control-channel sender and a clone of the
connected update sender; the clone is a handle to the same channel as the
sender passed to the backend, so the backend is not the exclusive holder of
the update-sending half. -/
theorem C8_gui_holds_update_sender_clone (cli : Cli) (env : Env)
    (h : cli.no_gui = false) :
    (Loopers.main cli env).1.filter (fun s => s.isMkGui) =
      [Step.mkGui { receiver := (), engine_sender := ⟨100⟩,
                    sender := GuiSender.clone GuiSender.connected }] ∧
    GuiSender.clone GuiSender.connected = GuiSender.connected ∧
    (backendCallArgs (Loopers.main cli env).1).all
      (fun a => a.gui_sender == GuiSender.connected) = true := by
  unfold Loopers.main Loopers.decodeAndDispatch Loopers.guiInit Loopers.dispatch
  unfold Loopers.logSteps Loopers.restoreSteps
  simp only [h]
  repeat' split
  all_goals
    simp_all [backendCallArgs_append, backendCallArgs, List.filter_append,
      Step.isMkGui, GuiSender.clone]

/-- Claim C8, witness at the default (GUI-enabled) configuration. -/
theorem C8_gui_holds_update_sender_clone_witness :
    cliDefault.no_gui = false ∧
    ((Loopers.main cliDefault envOk).1.filter (fun s => s.isMkGui) =
      [Step.mkGui { receiver := (), engine_sender := ⟨100⟩,
                    sender := GuiSender.clone GuiSender.connected }] ∧
     GuiSender.clone GuiSender.connected = GuiSender.connected ∧
     (backendCallArgs (Loopers.main cliDefault envOk).1).all
       (fun a => a.gui_sender == GuiSender.connected) = true) :=
  ⟨rfl, C8_gui_holds_update_sender_clone cliDefault envOk rfl⟩

/-- Claim C9: on every run that reaches the dispatcher, the unknown-driver
error path is taken exactly for the strings that differ (by exact,
case-sensitive string equality) from both `"jack"` and `"coreaudio"` — in
particular for case variants such as `"Jack"` and for strings with
surrounding whitespace. -/
theorem C9_driver_match_exact_case_sensitive (cli : Cli) (env : Env)
    (bn be : Samples) (hn : env.decodeNormal = some bn)
    (he : env.decodeEmphasis = some be) :
    Step.printUnknownDriver cli.driver ∈ (Loopers.main cli env).1 ↔
      (cli.driver ≠ "jack" ∧ cli.driver ≠ "coreaudio") := by
  unfold Loopers.main Loopers.decodeAndDispatch Loopers.guiInit Loopers.dispatch
  unfold Loopers.logSteps Loopers.restoreSteps
  simp only [hn, he]
  repeat' split
  all_goals
    simp_all [List.mem_append]

/-- Claim C9, witness: the case variant `"Jack"` takes the unknown-driver
path. -/
theorem C9_driver_match_exact_case_sensitive_witness :
    (envOk.decodeNormal = some [1, 2] ∧ envOk.decodeEmphasis = some [3]) ∧
    (Step.printUnknownDriver "Jack" ∈
        (Loopers.main { cliDefault with driver := "Jack" } envOk).1 ↔
      (("Jack" : String) ≠ "jack" ∧ ("Jack" : String) ≠ "coreaudio")) :=
  ⟨⟨rfl, rfl⟩,
    C9_driver_match_exact_case_sensitive { cliDefault with driver := "Jack" }
      envOk [1, 2] [3] rfl rfl⟩

/-- Claim C10: with a non-empty log path, a failure of `fern::log_file`
makes `setup_logger` return the I/O error via `?` before `d.apply()` is ever
invoked, so no sink at all — not even the stdout one — is installed. -/
theorem C10_log_file_failure_loses_all_sinks (debug : Bool) (path : String)
    (env : LoggerEnv) (hp : path ≠ "") (hf : env.logFileCreateOk = false) :
    (setup_logger debug path env).result = Except.error InitError.io ∧
    (setup_logger debug path env).applyInvoked = false ∧
    (setup_logger debug path env).installed = none := by
  simp [setup_logger, hp, hf]

/-- Claim C10, witness at the concrete path `"a.log"`. -/
theorem C10_log_file_failure_loses_all_sinks_witness :
    (("a.log" : String) ≠ "" ∧ (⟨false, true⟩ : LoggerEnv).logFileCreateOk = false) ∧
    ((setup_logger false "a.log" ⟨false, true⟩).result = Except.error InitError.io ∧
     (setup_logger false "a.log" ⟨false, true⟩).applyInvoked = false ∧
     (setup_logger false "a.log" ⟨false, true⟩).installed = none) :=
  ⟨⟨by decide, rfl⟩,
    C10_log_file_failure_loses_all_sinks false "a.log" ⟨false, true⟩ (by decide) rfl⟩
